import Mathlib

/-!
Verification development for the cluster-manager core
(`source/common/upstream/cluster_manager_impl.cc` and
`source/common/upstream/outlier_detection_impl.h`).

Shallow embedding conventions:
* hosts and connection pools are identified by `Nat` ids (`Host` objects have
  value identity in the source, so an id is enough);
* `std::unordered_map` becomes a function into `Option`, updated with
  `Function.update`;
* machine counters (`uint32_t`, `size_t`) become `Nat` — none of the embedded
  code paths can overflow them in the scenarios considered;
* functions that `throw EnvoyException` become `Except String`.
-/

namespace Upstream

abbrev HostId := Nat

abbrev PoolId := Nat

/-- `ResourcePriority` from the public headers: the priorities a connection
pool slot can be indexed by. -/
inductive ResourcePriority
  | Default
  | High
deriving DecidableEq, Repr

/-- `enumToInt` applied to a `ResourcePriority`. -/
def enumToInt : ResourcePriority → Nat
  | .Default => 0
  | .High => 1

/-- Number of resource priorities: the size of the `pools_` array of a
`ConnPoolsContainer`. -/
def NUM_PRIORITIES : Nat := 2

/-- Whether a pool speaks HTTP/1 or HTTP/2
(`Http::Http1::ConnPoolImplProd` vs `Http::Http2::ProdConnPoolImpl`). -/
inductive PoolKind
  | Http1
  | Http2
deriving DecidableEq, Repr

/-- A connection pool instance: its identity plus which protocol
implementation was allocated. -/
structure Pool where
  id : PoolId
  kind : PoolKind
deriving DecidableEq, Repr

/-- `ClusterInfo::Features`: feature bits of a cluster. Modelled from the
spec: the header defining the bit values is not in `src/`; the spec only
requires that `features` may include an HTTP/2 capability bit, so `HTTP2` is
modelled as bit 0 of a `Nat` bitmask. -/
def Features.HTTP2 : Nat := 1

/-- A runtime snapshot: `featureEnabled(key, default_percent)` as an abstract
boolean-valued oracle (the runtime loader is an external collaborator). -/
structure RuntimeSnapshot where
  featureEnabled : String → Nat → Bool

/-- `ProdClusterManagerImpl::allocateConnPool`: allocate an HTTP/2 pool iff
the host's cluster feature bits include HTTP2 and the runtime feature
`upstream.use_http2` (default percentage 100) is enabled; otherwise allocate
an HTTP/1 pool. The fresh pool gets identity `next_id`. -/
def allocateConnPool (runtime : RuntimeSnapshot) (cluster_features : Nat)
    (next_id : PoolId) : Pool :=
  if (cluster_features &&& Features.HTTP2 != 0) &&
      runtime.featureEnabled "upstream.use_http2" 100 then
    { id := next_id, kind := .Http2 }
  else
    { id := next_id, kind := .Http1 }

/-! ## Outlier detection sinks (`outlier_detection_impl.h`) -/

/-- `DetectorHostSinkNullImpl`: the null host sink. It has no state. -/
structure DetectorHostSinkNullImpl where
deriving DecidableEq, Repr

/-- `DetectorHostSinkNullImpl::numEjections`. -/
def DetectorHostSinkNullImpl.numEjections (_ : DetectorHostSinkNullImpl) : Nat := 0

/-- `DetectorHostSinkNullImpl::putHttpResponseCode`: empty body. -/
def DetectorHostSinkNullImpl.putHttpResponseCode (s : DetectorHostSinkNullImpl)
    (_response_code : Nat) : DetectorHostSinkNullImpl := s

/-- `DetectorHostSinkNullImpl::putResponseTime`: empty body. -/
def DetectorHostSinkNullImpl.putResponseTime (s : DetectorHostSinkNullImpl)
    (_ms : Nat) : DetectorHostSinkNullImpl := s

/-- The mutable state of a `DetectorHostSinkImpl` (the generic detector's
per-host sink): consecutive-5xx counter, ejection time, ejection count. -/
structure DetectorHostSinkImpl where
  consecutive_5xx_ : Nat
  ejection_time_ : Nat
  num_ejections_ : Nat
deriving DecidableEq, Repr

/-- `DetectorHostSinkImpl::numEjections`. -/
def DetectorHostSinkImpl.numEjections (s : DetectorHostSinkImpl) : Nat :=
  s.num_ejections_

/-- `DetectorHostSinkImpl::putResponseTime`: empty body — the sink state is
returned unchanged. -/
def DetectorHostSinkImpl.putResponseTime (s : DetectorHostSinkImpl)
    (_ms : Nat) : DetectorHostSinkImpl := s

/-! ## Per-host connection pool containers and the drain protocol
(`ThreadLocalClusterManagerImpl`) -/

/-- `ConnPoolsContainer`: per-host bundle of priority-indexed connection
pools plus the drain counter. Declared in the header (not in `src/`);
modelled from the spec: a fixed-size array indexed by priority — one slot per
`ResourcePriority`, each empty or holding one pool — together with
`drains_remaining`. The drain counter is value-initialized to `0` on
default construction. -/
structure ConnPoolsContainer where
  pools_ : List (Option Pool)
  drains_remaining_ : Nat
deriving DecidableEq, Repr

/-- A default-constructed `ConnPoolsContainer`: all slots empty, no drains
pending. -/
def ConnPoolsContainer.empty : ConnPoolsContainer :=
  { pools_ := List.replicate NUM_PRIORITIES none, drains_remaining_ := 0 }

/-- The number of non-empty pool slots of a container — the count taken by
the first loop of `drainConnPools`. -/
def countNonEmpty (pools : List (Option Pool)) : Nat :=
  (pools.filter Option.isSome).length

/-- The worker's `host_http_conn_pool_map_`: `std::unordered_map` from host
identity to its `ConnPoolsContainer`, modelled as a function into `Option`. -/
def CPMap := HostId → Option ConnPoolsContainer

/-- The empty host→container map. -/
def CPMap.empty : CPMap := fun _ => none

/-- `operator[]` on the host→container map: return the existing container, or
default-construct, insert and return an empty one. -/
def CPMap.index (m : CPMap) (h : HostId) : CPMap × ConnPoolsContainer :=
  match m h with
  | some c => (m, c)
  | none => (Function.update m h (some ConnPoolsContainer.empty), ConnPoolsContainer.empty)

/-- `ThreadLocalClusterManagerImpl::drainConnPools(old_host, container)`
first phase: increment `drains_remaining_` once per non-empty pool slot and
register a drained-callback on each non-empty pool. Returns the updated map
and the number of drained-callbacks registered. If the host has no container
the function is never called; we return the map unchanged in that case. -/
def drainConnPools (m : CPMap) (old_host : HostId) : CPMap × Nat :=
  match m old_host with
  | none => (m, 0)
  | some c =>
    let n := countNonEmpty c.pools_
    (Function.update m old_host
      (some { c with drains_remaining_ := c.drains_remaining_ + n }), n)

/-- The member-update callback registered on every worker `HostSet`
(`ThreadLocalClusterManagerImpl` constructor): for each removed host that has
a container in `host_http_conn_pool_map_`, run `drainConnPools`. Returns the
updated map and the total number of drained-callbacks registered. -/
def memberUpdateDrain (m : CPMap) (hosts_removed : List HostId) : CPMap × Nat :=
  hosts_removed.foldl
    (fun acc old_host =>
      match acc.1 old_host with
      | some _ =>
        let r := drainConnPools acc.1 old_host
        (r.1, acc.2 + r.2)
      | none => acc)
    (m, 0)

/-- Worker-side drain state: the host→container map together with the
dispatcher's deferred-deletion queue (each entry one moved-out pool slot). -/
structure WorkerPools where
  host_http_conn_pool_map_ : CPMap
  deferred_deleted : List (Option Pool)

/-- One firing of the drained-callback registered by `drainConnPools` for
`old_host`: look up (`operator[]`) the container, decrement
`drains_remaining_`; when it reaches zero, hand every pool slot of the
container to the dispatcher's deferred-deletion queue and erase the map
entry for `old_host`. -/
def drainedCallback (old_host : HostId) (s : WorkerPools) : WorkerPools :=
  let c := (s.host_http_conn_pool_map_ old_host).getD ConnPoolsContainer.empty
  let c' : ConnPoolsContainer := { c with drains_remaining_ := c.drains_remaining_ - 1 }
  if c'.drains_remaining_ = 0 then
    { host_http_conn_pool_map_ := Function.update s.host_http_conn_pool_map_ old_host none,
      deferred_deleted := s.deferred_deleted ++ c'.pools_ }
  else
    { s with host_http_conn_pool_map_ :=
        Function.update s.host_http_conn_pool_map_ old_host (some c') }

/-! ## Worker cluster entries and the hot path -/

/-- Per-cluster stats relevant to the embedded paths. -/
structure ClusterStats where
  upstream_cx_none_healthy_ : Nat
deriving DecidableEq, Repr

/-- A worker's `ClusterEntry` as seen by the hot path: the primary cluster's
info (name, feature bits, stats) plus the load balancer's choice for the
next `chooseHost()` call, abstracted as data (the LB is embedded separately
for the round-robin scenario). -/
structure TLCEntry where
  primary_cluster_name : String
  features : Nat
  stats : ClusterStats
  chooseHostResult : Option HostId
deriving DecidableEq, Repr

/-- Worker state touched by the hot-path entry points:
`thread_local_clusters_`, the shared `host_http_conn_pool_map_`, and the
allocator's next fresh pool id. -/
structure WorkerState where
  thread_local_clusters_ : String → Option TLCEntry
  host_http_conn_pool_map_ : CPMap
  next_pool_id : PoolId

/-- `ClusterEntry::connPool(priority)` (given the LB's host choice): if no
host, bump `upstream_cx_none_healthy` and return no pool; otherwise
find-or-insert the host's container and, if the slot for `priority` is
empty, allocate a pool there via `allocateConnPool`. Returns the pool slot
read back from the map, the updated stats, the updated map, and the next
fresh pool id. -/
def ClusterEntry.connPool (runtime : RuntimeSnapshot) (features : Nat)
    (chooseHost : Option HostId) (stats : ClusterStats) (m : CPMap)
    (next_id : PoolId) (priority : ResourcePriority) :
    Option Pool × ClusterStats × CPMap × PoolId :=
  match chooseHost with
  | none =>
    (none,
     { stats with upstream_cx_none_healthy_ := stats.upstream_cx_none_healthy_ + 1 },
     m, next_id)
  | some host =>
    let mc := CPMap.index m host
    let container := mc.2
    match (container.pools_.get? (enumToInt priority)).getD none with
    | some p => (some p, stats, mc.1, next_id)
    | none =>
      let p := allocateConnPool runtime features next_id
      let container' : ConnPoolsContainer :=
        { container with pools_ := container.pools_.set (enumToInt priority) (some p) }
      ((container'.pools_.get? (enumToInt priority)).getD none, stats,
       Function.update mc.1 host (some container'), next_id + 1)

/-- `ClusterManagerImpl::httpConnPoolForCluster(cluster, priority)`: look up
the worker's entry for the cluster name — `unknown cluster` error if absent —
then delegate to `ClusterEntry::connPool`. -/
def httpConnPoolForCluster (runtime : RuntimeSnapshot) (ws : WorkerState)
    (cluster : String) (priority : ResourcePriority) :
    Except String (Option Pool × WorkerState) :=
  match ws.thread_local_clusters_ cluster with
  | none => .error ("unknown cluster " ++ cluster)
  | some entry =>
    let r := ClusterEntry.connPool runtime entry.features entry.chooseHostResult
      entry.stats ws.host_http_conn_pool_map_ ws.next_pool_id priority
    .ok (r.1,
      { ws with
        thread_local_clusters_ := Function.update ws.thread_local_clusters_ cluster
          (some { entry with stats := r.2.1 }),
        host_http_conn_pool_map_ := r.2.2.1,
        next_pool_id := r.2.2.2 })

/-- `ClusterManagerImpl::tcpConnForCluster(cluster)`: `unknown cluster` error
if the name is not in the worker map; otherwise ask the LB for a host — on
no host, bump `upstream_cx_none_healthy` and return `(absent, absent)`; on a
host, create a connection to it and return both. -/
def tcpConnForCluster (ws : WorkerState) (cluster : String) :
    Except String ((Option Nat × Option HostId) × WorkerState) :=
  match ws.thread_local_clusters_ cluster with
  | none => .error ("unknown cluster " ++ cluster)
  | some entry =>
    match entry.chooseHostResult with
    | some h => .ok ((some h, some h), ws)
    | none =>
      let stats' : ClusterStats :=
        { entry.stats with upstream_cx_none_healthy_ :=
            entry.stats.upstream_cx_none_healthy_ + 1 }
      let tlc' := Function.update ws.thread_local_clusters_ cluster
        (some { entry with stats := stats' })
      .ok ((none, none), { ws with thread_local_clusters_ := tlc' })

/-- `ClusterManagerImpl::httpAsyncClientForCluster(cluster)`: return the
entry's async client reference, or `unknown cluster` error. The client is
identified by its owning cluster name. -/
def httpAsyncClientForCluster (ws : WorkerState) (cluster : String) :
    Except String String :=
  match ws.thread_local_clusters_ cluster with
  | some entry => .ok entry.primary_cluster_name
  | none => .error ("unknown cluster " ++ cluster)

/-- `ClusterManagerImpl::get(cluster)`: the cluster info handle from the
calling worker's replica, or absent. -/
def ClusterManager.get (ws : WorkerState) (cluster : String) : Option String :=
  match ws.thread_local_clusters_ cluster with
  | some entry => some entry.primary_cluster_name
  | none => none

/-! ## Membership snapshots and update fan-out -/

/-- A `HostSet`: the four membership vectors of a cluster at one observer. -/
structure HostSet where
  hosts_ : List HostId
  healthy_hosts_ : List HostId
  hosts_per_zone_ : List (List HostId)
  healthy_hosts_per_zone_ : List (List HostId)
deriving DecidableEq, Repr

/-- The payload captured by `ClusterManagerImpl::postThreadLocalClusterUpdate`
into the task closure posted to each worker: the cluster name, the four
snapshot vector copies, and the added/removed deltas. -/
structure MembershipUpdate where
  name : String
  hosts_copy : List HostId
  healthy_hosts_copy : List HostId
  hosts_per_zone_copy : List (List HostId)
  healthy_hosts_per_zone_copy : List (List HostId)
  hosts_added : List HostId
  hosts_removed : List HostId
deriving DecidableEq, Repr

/-- Primary-side view of one cluster: its name and the four raw membership
vectors (`rawHosts`, `rawHealthyHosts`, `rawHostsPerZone`,
`rawHealthyHostsPerZone`). -/
structure PrimaryClusterView where
  name : String
  rawHosts : List HostId
  rawHealthyHosts : List HostId
  rawHostsPerZone : List (List HostId)
  rawHealthyHostsPerZone : List (List HostId)
deriving DecidableEq, Repr

/-- The single snapshot captured by `postThreadLocalClusterUpdate` for one
membership change. -/
def captureUpdate (p : PrimaryClusterView) (hosts_added hosts_removed : List HostId) :
    MembershipUpdate :=
  { name := p.name
    hosts_copy := p.rawHosts
    healthy_hosts_copy := p.rawHealthyHosts
    hosts_per_zone_copy := p.rawHostsPerZone
    healthy_hosts_per_zone_copy := p.rawHealthyHostsPerZone
    hosts_added := hosts_added
    hosts_removed := hosts_removed }

/-- `ClusterManagerImpl::postThreadLocalClusterUpdate`: capture the four
snapshot vectors plus the deltas once, then run one task holding that single
snapshot on every worker (`runOnAllThreads`) — modelled as appending the same
update to every worker's task queue. -/
def postThreadLocalClusterUpdate (p : PrimaryClusterView)
    (hosts_added hosts_removed : List HostId)
    (workers : List (List MembershipUpdate)) : List (List MembershipUpdate) :=
  workers.map (fun q => q ++ [captureUpdate p hosts_added hosts_removed])

/-- Modelled from the spec: `HostSetImpl::updateHosts` (the `HostSet`
implementation is not in `src/`) — "each task applies the snapshot
atomically": all four vectors of the replica `HostSet` are replaced by the
snapshot's four vectors in a single step. -/
def HostSet.updateHosts (_ : HostSet) (hosts healthy_hosts : List HostId)
    (hosts_per_zone healthy_hosts_per_zone : List (List HostId)) : HostSet :=
  { hosts_ := hosts
    healthy_hosts_ := healthy_hosts
    hosts_per_zone_ := hosts_per_zone
    healthy_hosts_per_zone_ := healthy_hosts_per_zone }

/-- `ThreadLocalClusterManagerImpl::updateClusterMembership` applied to the
named cluster's replica `HostSet`: one posted task applying one snapshot. -/
def updateClusterMembership (hs : HostSet) (u : MembershipUpdate) : HostSet :=
  hs.updateHosts u.hosts_copy u.healthy_hosts_copy u.hosts_per_zone_copy
    u.healthy_hosts_per_zone_copy

/-- A worker draining its task queue: updates are applied serially in the
order posted. -/
def applyUpdates (hs : HostSet) (us : List MembershipUpdate) : HostSet :=
  us.foldl updateClusterMembership hs

/-! ## Config load (`ClusterManagerImpl` constructor and `loadCluster`) -/

/-- The slice of one cluster's JSON config that `loadCluster` dispatches on:
its `name` and `type` strings. -/
structure ClusterConfig where
  name : String
  type : String
deriving DecidableEq, Repr

/-- The cluster-manager config: the `clusters` array, the optional `sds`
object's backing cluster config, and the optional `local_cluster_name`. -/
structure CMConfig where
  clusters : List ClusterConfig
  sds : Option ClusterConfig
  local_cluster_name : Option String
deriving DecidableEq, Repr

/-- Primary cluster-manager state built by the constructor: the registry of
primary cluster names (in registration order), whether `sds_config_` has
been set, the number of SDS clusters collected in `sds_clusters_`, and the
`pending_cluster_init_` counter. -/
structure CMState where
  primary_clusters_ : List String
  sds_config_valid : Bool
  sds_clusters_size : Nat
  pending_cluster_init_ : Nat
deriving DecidableEq, Repr

/-- The cluster-type dispatch at the top of `ClusterManagerImpl::loadCluster`:
`static`, `strict_dns` and `logical_dns` construct their cluster; `sds`
additionally requires `sds_config_` to be valid and registers the cluster in
`sds_clusters_`; any other type throws. -/
def loadClusterType (s : CMState) (c : ClusterConfig) : Except String CMState :=
  if c.type = "static" ∨ c.type = "strict_dns" ∨ c.type = "logical_dns" then
    .ok s
  else if c.type = "sds" then
    if s.sds_config_valid then
      .ok { s with sds_clusters_size := s.sds_clusters_size + 1 }
    else
      .error "cannot create an sds cluster without an sds config"
  else
    .error ("cluster: unknown cluster type " ++ c.type)

/-- `ClusterManagerImpl::loadCluster`: construct the typed cluster, then
reject a duplicate name, then register it in `primary_clusters_`. -/
def loadCluster (s : CMState) (c : ClusterConfig) : Except String CMState :=
  match loadClusterType s c with
  | .error e => .error e
  | .ok s1 =>
    if c.name ∈ s1.primary_clusters_ then
      .error ("route: duplicate cluster " ++ c.name)
    else
      .ok { s1 with primary_clusters_ := s1.primary_clusters_ ++ [c.name] }

/-- The constructor's loop over the `clusters` array. -/
def loadClusters (s : CMState) (cs : List ClusterConfig) : Except String CMState :=
  match cs with
  | [] => .ok s
  | c :: rest =>
    match loadCluster s c with
    | .error e => .error e
    | .ok s1 => loadClusters s1 rest

/-- The `local_cluster_name` check at the end of the constructor: if
configured, the name must be in `primary_clusters_`. -/
def checkLocalClusterName (s : CMState) (lcn : Option String) :
    Except String CMState :=
  match lcn with
  | none => .ok s
  | some n =>
    if n ∈ s.primary_clusters_ then .ok s
    else .error ("local cluster must be defined: " ++ n)

/-- The `ClusterManagerImpl` constructor's config-validation path:
`pending_cluster_init_` is set to the number of configured clusters, plus
one when an `sds` config is present; the SDS backing cluster is loaded
before `sds_config_` becomes valid; then every listed cluster is loaded;
then `local_cluster_name` is checked. -/
def clusterManagerLoad (cfg : CMConfig) : Except String CMState :=
  let s0 : CMState :=
    { primary_clusters_ := []
      sds_config_valid := false
      sds_clusters_size := 0
      pending_cluster_init_ :=
        cfg.clusters.length + (if cfg.sds.isSome then 1 else 0) }
  match cfg.sds with
  | none =>
    match loadClusters s0 cfg.clusters with
    | .error e => .error e
    | .ok s2 => checkLocalClusterName s2 cfg.local_cluster_name
  | some sc =>
    match loadCluster s0 sc with
    | .error e => .error e
    | .ok s1 =>
      match loadClusters { s1 with sds_config_valid := true } cfg.clusters with
      | .error e => .error e
      | .ok s2 => checkLocalClusterName s2 cfg.local_cluster_name

/-- All cluster configs registered by a load: the SDS backing cluster (if
any) followed by the `clusters` array, in registration order. -/
def allClusterConfigs (cfg : CMConfig) : List ClusterConfig :=
  (match cfg.sds with
   | some sc => [sc]
   | none => []) ++ cfg.clusters

/-! ## Init-counter protocol (`loadCluster`'s initialized callback) -/

/-- Observable state of the initialization protocol: the
`pending_cluster_init_` counter, `sds_clusters_.size()`, whether an external
`initialized_callback_` is registered, how many times it has been invoked,
and how many times the SDS-initialize loop has run. -/
structure InitState where
  pending_cluster_init_ : Nat
  sds_clusters_size : Nat
  has_initialized_callback_ : Bool
  initialized_callback_calls : Nat
  sds_initialize_rounds : Nat
deriving DecidableEq, Repr

/-- The per-cluster initialized callback installed by `loadCluster`:
decrement `pending_cluster_init_`; at zero invoke the external
`initialized_callback_` (when registered); otherwise, when the counter
equals `sds_clusters_.size()`, run `initialize()` on every SDS cluster. -/
def clusterInitializedCb (s : InitState) : InitState :=
  let p := s.pending_cluster_init_ - 1
  if p = 0 then
    { s with
      pending_cluster_init_ := p
      initialized_callback_calls :=
        s.initialized_callback_calls + (if s.has_initialized_callback_ then 1 else 0) }
  else if p = s.sds_clusters_size then
    { s with
      pending_cluster_init_ := p
      sds_initialize_rounds := s.sds_initialize_rounds + 1 }
  else
    { s with pending_cluster_init_ := p }

/-- The initialization state right after a load: counter at `n`, `k` SDS
clusters, external callback registered, nothing fired yet. -/
def initInitState (n k : Nat) : InitState :=
  { pending_cluster_init_ := n
    sds_clusters_size := k
    has_initialized_callback_ := true
    initialized_callback_calls := 0
    sds_initialize_rounds := 0 }

/-! ## Worker construction order (`ThreadLocalClusterManagerImpl` ctor) -/

/-- What the `ClusterEntry` constructor receives that matters for
zone-aware routing: the cluster's name and which cluster's `host_set_` was
passed as the LB's local host set (`none` models the `nullptr` argument). -/
structure ClusterEntryCtorArgs where
  name : String
  lb_local_host_set : Option String
deriving DecidableEq, Repr

/-- The `ThreadLocalClusterManagerImpl` constructor: when a local cluster
name is configured, its `ClusterEntry` is created first (with no local host
set) and every other cluster's entry is created with a reference to the
local cluster's `host_set_`; without a local cluster name, every entry gets
`nullptr`. The result lists the entries in creation order. -/
def threadLocalClusterManagerInit (primary_clusters : List String)
    (local_cluster_name : Option String) : List ClusterEntryCtorArgs :=
  match local_cluster_name with
  | some lc =>
    { name := lc, lb_local_host_set := none } ::
      (primary_clusters.filter (fun n => n ≠ lc)).map
        (fun n => { name := n, lb_local_host_set := some lc })
  | none =>
    primary_clusters.map (fun n => { name := n, lb_local_host_set := none })

/-! ## Round-robin load balancing (scenario S1) -/

/-- Pick cyclically from a list at index `i` (modulo the length). -/
def cyclicPick (l : List HostId) (i : Nat) : Option HostId :=
  l.get? (i % l.length)

/-- Modelled from the spec: `RoundRobinLoadBalancer` (`load_balancer_impl` is
not in `src/`) — "cyclic index over the healthy vector; if empty, falls back
to the full vector then returns absent", with panic mode picking from the
full vector when the healthy fraction is below the runtime threshold
(default 50%). State is the cyclic index. -/
structure RoundRobinLoadBalancer where
  rr_index_ : Nat
deriving DecidableEq, Repr

/-- Whether the LB is in panic mode: healthy fraction below
`panic_threshold_pct` percent of the full vector. -/
def inPanic (hs : HostSet) (panic_threshold_pct : Nat) : Bool :=
  hs.healthy_hosts_.length * 100 < panic_threshold_pct * hs.hosts_.length

/-- Modelled from the spec: `RoundRobinLoadBalancer::chooseHost` — cyclic
pick from the healthy vector (outside panic mode), else from the full
vector, else absent; the cyclic index advances on every pick. -/
def RoundRobinLoadBalancer.chooseHost (lb : RoundRobinLoadBalancer)
    (hs : HostSet) (panic_threshold_pct : Nat) :
    Option HostId × RoundRobinLoadBalancer :=
  if hs.healthy_hosts_ ≠ [] ∧ inPanic hs panic_threshold_pct = false then
    (cyclicPick hs.healthy_hosts_ lb.rr_index_, { rr_index_ := lb.rr_index_ + 1 })
  else if hs.hosts_ ≠ [] then
    (cyclicPick hs.hosts_ lb.rr_index_, { rr_index_ := lb.rr_index_ + 1 })
  else
    (none, lb)

/-- One `HttpConnPool` call of scenario S1: round-robin `chooseHost` over the
entry's `HostSet`, then `ClusterEntry::connPool`'s find-or-insert on the
worker's host→container map. Returns the host chosen and pool handed out,
the advanced LB, the updated map, and the next fresh pool id. -/
def httpConnPoolStep (runtime : RuntimeSnapshot) (features : Nat)
    (hs : HostSet) (lb : RoundRobinLoadBalancer) (stats : ClusterStats)
    (m : CPMap) (next_id : PoolId) (priority : ResourcePriority) :
    (Option HostId × Option Pool) × RoundRobinLoadBalancer × ClusterStats × CPMap × PoolId :=
  let c := lb.chooseHost hs 50
  let r := ClusterEntry.connPool runtime features c.1 stats m next_id priority
  ((c.1, r.1), c.2, r.2)

/-- Scenario S1: a static round-robin cluster whose two hosts are both
healthy; three sequential `HttpConnPool(name, Default)` calls on one worker,
starting from an empty host→container map and cyclic index `i`. Returns the
(host, pool) pair each call handed out and the final fresh-pool id (the
total number of pools created). -/
def s1Scenario (runtime : RuntimeSnapshot) (features : Nat) (h1 h2 : HostId)
    (i : Nat) : List (Option HostId × Option Pool) × PoolId :=
  let hs : HostSet :=
    { hosts_ := [h1, h2], healthy_hosts_ := [h1, h2]
      hosts_per_zone_ := [[h1, h2]], healthy_hosts_per_zone_ := [[h1, h2]] }
  let stats : ClusterStats := { upstream_cx_none_healthy_ := 0 }
  let r1 := httpConnPoolStep runtime features hs { rr_index_ := i } stats
    CPMap.empty 0 .Default
  let r2 := httpConnPoolStep runtime features hs r1.2.1 r1.2.2.1
    r1.2.2.2.1 r1.2.2.2.2 .Default
  let r3 := httpConnPoolStep runtime features hs r2.2.1 r2.2.2.1
    r2.2.2.2.1 r2.2.2.2.2 .Default
  ([r1.1, r2.1, r3.1], r3.2.2.2.2)

/-! ## Derived observers and predicates used by the statements -/

/-- The cluster types `loadCluster` accepts. -/
def KnownClusterType (t : String) : Prop :=
  t = "static" ∨ t = "strict_dns" ∨ t = "logical_dns" ∨ t = "sds"

instance (t : String) : Decidable (KnownClusterType t) := by
  unfold KnownClusterType
  infer_instance

/-- The `upstream_cx_none_healthy` counter of the named cluster as seen in a
worker state. -/
def noneHealthyCount (ws : WorkerState) (cluster : String) : Option Nat :=
  (ws.thread_local_clusters_ cluster).map
    (fun e => e.stats.upstream_cx_none_healthy_)

/-! ## Concrete instances used by the witnesses -/

/-- A runtime whose every feature is enabled. -/
def rtAll : RuntimeSnapshot := { featureEnabled := fun _ _ => true }

/-- A worker that knows no clusters. -/
def wsEmpty : WorkerState :=
  { thread_local_clusters_ := fun _ => none
    host_http_conn_pool_map_ := CPMap.empty
    next_pool_id := 0 }

/-- A cluster entry whose load balancer currently finds no host. -/
def entryNoHost : TLCEntry :=
  { primary_cluster_name := "c"
    features := 0
    stats := { upstream_cx_none_healthy_ := 0 }
    chooseHostResult := none }

/-- A worker knowing one cluster `c` with no healthy host. -/
def wsOne : WorkerState :=
  { thread_local_clusters_ := Function.update (fun _ => none) "c" (some entryNoHost)
    host_http_conn_pool_map_ := CPMap.empty
    next_pool_id := 0 }

/-- A concrete pool and container used by the drain witness. -/
def poolW : Pool := { id := 0, kind := .Http1 }

/-- A container holding one pool at priority Default. -/
def containerW : ConnPoolsContainer :=
  { pools_ := [some poolW, none], drains_remaining_ := 0 }

/-- A host→container map with one entry for host 7. -/
def cpmapW : CPMap := Function.update CPMap.empty 7 (some containerW)

/-- A config with one static cluster, one SDS cluster and an SDS backing
cluster. -/
def cfgW : CMConfig :=
  { clusters := [{ name := "a", type := "static" }, { name := "q", type := "sds" }]
    sds := some { name := "d", type := "static" }
    local_cluster_name := none }

/-- A config whose one cluster has an unknown type. -/
def cfgBad : CMConfig :=
  { clusters := [{ name := "a", type := "bogus" }]
    sds := none
    local_cluster_name := none }

/-- The primary state produced by loading `cfgW`. -/
def cmW : CMState :=
  { primary_clusters_ := ["d", "a", "q"]
    sds_config_valid := true
    sds_clusters_size := 1
    pending_cluster_init_ := 3 }

end Upstream

namespace Upstream

/-! # Theorems -/

/-- C10: `putResponseTime` is a no-op on both the generic
`DetectorHostSinkImpl` and the null sink — reported response times leave
every field of the outlier-detection state unchanged. -/
theorem putResponseTime_noop (s : DetectorHostSinkImpl)
    (ns : DetectorHostSinkNullImpl) (t u : Nat) :
    s.putResponseTime t = s ∧ ns.putResponseTime u = ns :=
  ⟨rfl, rfl⟩

/-- C2: for every membership change the primary captures one snapshot
holding the four vectors (full, healthy, per-zone, healthy-per-zone) plus
the deltas and posts exactly one task per worker, all carrying that same
snapshot; a worker applying a sequence of updates ends with its replica
`HostSet` holding all four vectors of the last update — never vectors from
two different updates. -/
theorem membership_update_atomic (p : PrimaryClusterView)
    (hosts_added hosts_removed : List HostId)
    (workers : List (List MembershipUpdate)) (hs : HostSet)
    (us : List MembershipUpdate) (u : MembershipUpdate) (i : Nat) :
    (postThreadLocalClusterUpdate p hosts_added hosts_removed workers).length
      = workers.length ∧
    (postThreadLocalClusterUpdate p hosts_added hosts_removed workers).get? i
      = (workers.get? i).map
          (fun q => q ++ [captureUpdate p hosts_added hosts_removed]) ∧
    captureUpdate p hosts_added hosts_removed
      = { name := p.name
          hosts_copy := p.rawHosts
          healthy_hosts_copy := p.rawHealthyHosts
          hosts_per_zone_copy := p.rawHostsPerZone
          healthy_hosts_per_zone_copy := p.rawHealthyHostsPerZone
          hosts_added := hosts_added
          hosts_removed := hosts_removed } ∧
    applyUpdates hs (us ++ [u])
      = { hosts_ := u.hosts_copy
          healthy_hosts_ := u.healthy_hosts_copy
          hosts_per_zone_ := u.hosts_per_zone_copy
          healthy_hosts_per_zone_ := u.healthy_hosts_per_zone_copy } := by
  refine ⟨by simp [postThreadLocalClusterUpdate], ?_, rfl, ?_⟩
  · simp [postThreadLocalClusterUpdate]
  · simp [applyUpdates, updateClusterMembership, HostSet.updateHosts]

/-- C9: with a configured local cluster name, the worker creates the local
cluster's replica first (itself with no local host set) and constructs every
other cluster's entry — hence its load balancer — with a reference to the
local cluster's `HostSet`; without a configured local cluster, every entry
receives no local host set. -/
theorem local_cluster_bootstrapped_first (pcs : List String) (lc : String) :
    (threadLocalClusterManagerInit pcs (some lc)).head?
      = some { name := lc, lb_local_host_set := none } ∧
    (∀ e ∈ (threadLocalClusterManagerInit pcs (some lc)).tail,
      e.lb_local_host_set = some lc ∧ e.name ≠ lc) ∧
    (∀ e ∈ threadLocalClusterManagerInit pcs none,
      e.lb_local_host_set = none) := by
  refine ⟨rfl, ?_, ?_⟩
  · intro e he
    simp only [threadLocalClusterManagerInit, List.tail_cons, List.mem_map,
      List.mem_filter] at he
    obtain ⟨n, ⟨_, hne⟩, rfl⟩ := he
    refine ⟨rfl, ?_⟩
    simpa using hne
  · intro e he
    simp only [threadLocalClusterManagerInit, List.mem_map] at he
    obtain ⟨n, _, rfl⟩ := he
    rfl

/-- C9 witness: in a worker with primary clusters `lc`, `a` and local
cluster `lc`, the entry for `a` is constructed with `lc`'s host set. -/
theorem local_cluster_bootstrapped_first_witness :
    ({ name := "a", lb_local_host_set := some "lc" } : ClusterEntryCtorArgs).lb_local_host_set
        = some "lc" ∧
    ({ name := "a", lb_local_host_set := some "lc" } : ClusterEntryCtorArgs).name ≠ "lc" :=
  (local_cluster_bootstrapped_first ["lc", "a"] "lc").2.1
    { name := "a", lb_local_host_set := some "lc" } (by decide)

/-- C7: for a cluster name not in the worker's replica map,
`httpConnPoolForCluster`, `tcpConnForCluster` and
`httpAsyncClientForCluster` all fail with the `unknown cluster` error (and
produce no updated state), while `get` returns absent instead of failing. -/
theorem unknown_cluster_errors (runtime : RuntimeSnapshot) (ws : WorkerState)
    (name : String) (priority : ResourcePriority)
    (h : ws.thread_local_clusters_ name = none) :
    httpConnPoolForCluster runtime ws name priority
      = .error ("unknown cluster " ++ name) ∧
    tcpConnForCluster ws name = .error ("unknown cluster " ++ name) ∧
    httpAsyncClientForCluster ws name = .error ("unknown cluster " ++ name) ∧
    ClusterManager.get ws name = none := by
  unfold httpConnPoolForCluster tcpConnForCluster httpAsyncClientForCluster
    ClusterManager.get
  rw [h]
  exact ⟨rfl, rfl, rfl, rfl⟩

/-- C7 witness: a worker that knows no clusters rejects `c` on all three
fallible entry points and `get` returns absent. -/
theorem unknown_cluster_errors_witness :
    httpConnPoolForCluster rtAll wsEmpty "c" ResourcePriority.Default
      = .error ("unknown cluster " ++ "c") ∧
    tcpConnForCluster wsEmpty "c" = .error ("unknown cluster " ++ "c") ∧
    httpAsyncClientForCluster wsEmpty "c" = .error ("unknown cluster " ++ "c") ∧
    ClusterManager.get wsEmpty "c" = none :=
  unknown_cluster_errors rtAll wsEmpty "c" ResourcePriority.Default rfl

/-- C4: when the pool slot for the chosen priority is empty at pool-lookup
time, `connPool` allocates and hands out a fresh pool, and that pool is
HTTP/2 iff the cluster's feature bits include HTTP2 and the runtime feature
`upstream.use_http2` (default percentage 100) is enabled; otherwise it is
HTTP/1. -/
theorem empty_slot_allocates_http2_iff (runtime : RuntimeSnapshot)
    (features : Nat) (host : HostId) (stats : ClusterStats) (m : CPMap)
    (next_id : PoolId) (priority : ResourcePriority)
    (hslot : ((m host).getD ConnPoolsContainer.empty).pools_.get? (enumToInt priority)
      = some none) :
    (ClusterEntry.connPool runtime features (some host) stats m next_id priority).1
      = some (allocateConnPool runtime features next_id) ∧
    ((allocateConnPool runtime features next_id).kind = PoolKind.Http2 ↔
      (features &&& Features.HTTP2 ≠ 0 ∧
        runtime.featureEnabled "upstream.use_http2" 100 = true)) ∧
    ((allocateConnPool runtime features next_id).kind = PoolKind.Http1 ↔
      ¬(features &&& Features.HTTP2 ≠ 0 ∧
        runtime.featureEnabled "upstream.use_http2" 100 = true)) := by
  have hlt : enumToInt priority
      < ((m host).getD ConnPoolsContainer.empty).pools_.length := by
    rw [List.get?_eq_getElem?, List.getElem?_eq_some] at hslot
    exact hslot.1
  refine ⟨?_, ?_, ?_⟩
  · unfold ClusterEntry.connPool CPMap.index
    cases hmh : m host with
    | none =>
      rw [hmh] at hslot hlt
      simp only [Option.getD_none] at hslot hlt
      rw [List.get?_eq_getElem?] at hslot
      simp [hmh, hslot, List.getElem?_set_eq_of_lt _ hlt]
    | some c =>
      rw [hmh] at hslot hlt
      simp only [Option.getD_some] at hslot hlt
      rw [List.get?_eq_getElem?] at hslot
      simp [hmh, hslot, List.getElem?_set_eq_of_lt _ hlt]
  · unfold allocateConnPool
    by_cases hcond : ((features &&& Features.HTTP2 != 0) &&
        runtime.featureEnabled "upstream.use_http2" 100) = true
    · simp only [hcond, if_true]
      simp only [Bool.and_eq_true, bne_iff_ne, ne_eq] at hcond
      simp [hcond]
    · simp only [hcond, if_false]
      simp only [Bool.and_eq_true, bne_iff_ne, ne_eq] at hcond
      simp [hcond]
  · unfold allocateConnPool
    by_cases hcond : ((features &&& Features.HTTP2 != 0) &&
        runtime.featureEnabled "upstream.use_http2" 100) = true
    · simp only [hcond, if_true]
      simp only [Bool.and_eq_true, bne_iff_ne, ne_eq] at hcond
      simp [hcond]
    · simp only [hcond, if_false]
      simp only [Bool.and_eq_true, bne_iff_ne, ne_eq] at hcond
      simp [hcond]

/-- C4 witness: an empty map, a host `3`, feature bit HTTP2 set and an
all-enabled runtime: the first lookup allocates the pool and it is HTTP/2. -/
theorem empty_slot_allocates_http2_iff_witness :
    (ClusterEntry.connPool rtAll 1 (some 3) { upstream_cx_none_healthy_ := 0 }
        CPMap.empty 0 ResourcePriority.Default).1
      = some (allocateConnPool rtAll 1 0) ∧
    ((allocateConnPool rtAll 1 0).kind = PoolKind.Http2 ↔
      ((1 : Nat) &&& Features.HTTP2 ≠ 0 ∧
        rtAll.featureEnabled "upstream.use_http2" 100 = true)) ∧
    ((allocateConnPool rtAll 1 0).kind = PoolKind.Http1 ↔
      ¬((1 : Nat) &&& Features.HTTP2 ≠ 0 ∧
        rtAll.featureEnabled "upstream.use_http2" 100 = true)) :=
  empty_slot_allocates_http2_iff rtAll 1 3 { upstream_cx_none_healthy_ := 0 }
    CPMap.empty 0 ResourcePriority.Default rfl

/-- Helper: on a successful host selection, `connPool` leaves the cluster
stats unchanged (in particular it does not touch
`upstream_cx_none_healthy`). -/
theorem connPool_some_stats (runtime : RuntimeSnapshot) (features : Nat)
    (h : HostId) (stats : ClusterStats) (m : CPMap) (next_id : PoolId)
    (priority : ResourcePriority) :
    (ClusterEntry.connPool runtime features (some h) stats m next_id
      priority).2.1 = stats := by
  unfold ClusterEntry.connPool
  dsimp only
  split <;> rfl

/-- C5: for a known cluster, when the load balancer returns no host,
`HttpConnPool` hands out no pool, `TcpConn` returns `(absent, absent)`, and
each call bumps the cluster's `upstream_cx_none_healthy` counter by exactly
one; on a successful selection the counter is untouched. -/
theorem no_healthy_host_counter (runtime : RuntimeSnapshot) (ws : WorkerState)
    (name : String) (priority : ResourcePriority) (entry : TLCEntry)
    (hfound : ws.thread_local_clusters_ name = some entry) :
    (∃ popt ws1,
      httpConnPoolForCluster runtime ws name priority = .ok (popt, ws1) ∧
      noneHealthyCount ws1 name
        = some (entry.stats.upstream_cx_none_healthy_ +
            (if entry.chooseHostResult = none then 1 else 0)) ∧
      (entry.chooseHostResult = none →
        popt = none ∧
          ws1.host_http_conn_pool_map_ = ws.host_http_conn_pool_map_)) ∧
    (∃ cd ws2,
      tcpConnForCluster ws name = .ok (cd, ws2) ∧
      noneHealthyCount ws2 name
        = some (entry.stats.upstream_cx_none_healthy_ +
            (if entry.chooseHostResult = none then 1 else 0)) ∧
      (entry.chooseHostResult = none → cd = (none, none)) ∧
      (∀ h, entry.chooseHostResult = some h → cd = (some h, some h))) := by
  have hhttp : httpConnPoolForCluster runtime ws name priority =
      .ok ((ClusterEntry.connPool runtime entry.features entry.chooseHostResult
          entry.stats ws.host_http_conn_pool_map_ ws.next_pool_id priority).1,
        { thread_local_clusters_ :=
            Function.update ws.thread_local_clusters_ name
              (some { entry with stats :=
                (ClusterEntry.connPool runtime entry.features entry.chooseHostResult
                  entry.stats ws.host_http_conn_pool_map_ ws.next_pool_id
                  priority).2.1 })
          host_http_conn_pool_map_ :=
            (ClusterEntry.connPool runtime entry.features entry.chooseHostResult
              entry.stats ws.host_http_conn_pool_map_ ws.next_pool_id
              priority).2.2.1
          next_pool_id :=
            (ClusterEntry.connPool runtime entry.features entry.chooseHostResult
              entry.stats ws.host_http_conn_pool_map_ ws.next_pool_id
              priority).2.2.2 }) := by
    unfold httpConnPoolForCluster
    rw [hfound]
  rcases hch : entry.chooseHostResult with _ | hh
  · rw [hch] at hhttp
    constructor
    · refine ⟨_, _, hhttp, ?_, ?_⟩
      · simp [noneHealthyCount, Function.update_same, ClusterEntry.connPool]
      · intro _
        exact ⟨rfl, rfl⟩
    · have htcp : tcpConnForCluster ws name =
          .ok ((none, none),
            { thread_local_clusters_ :=
                Function.update ws.thread_local_clusters_ name
                  (some { entry with stats := { entry.stats with upstream_cx_none_healthy_ := entry.stats.upstream_cx_none_healthy_ + 1 } })
              host_http_conn_pool_map_ := ws.host_http_conn_pool_map_
              next_pool_id := ws.next_pool_id }) := by
        unfold tcpConnForCluster
        simp only [hfound, hch]
      refine ⟨(none, none), _, htcp, ?_, ?_, ?_⟩
      · simp [noneHealthyCount, Function.update_same, hch]
      · intro _
        rfl
      · intro h hcon
        exact absurd hcon (by simp)
  · rw [hch] at hhttp
    constructor
    · refine ⟨_, _, hhttp, ?_, ?_⟩
      · simp [noneHealthyCount, Function.update_same, connPool_some_stats]
      · intro hcon
        exact absurd hcon (by simp)
    · have htcp : tcpConnForCluster ws name = .ok ((some hh, some hh), ws) := by
        unfold tcpConnForCluster
        simp only [hfound, hch]
      refine ⟨(some hh, some hh), ws, htcp, ?_, ?_, ?_⟩
      · simp [noneHealthyCount, hfound, hch]
      · intro hcon
        exact absurd hcon (by simp)
      · intro h hcon
        rw [Option.some_inj.mp hcon]

/-- C5 witness: a worker with one cluster `c` whose LB finds no host. -/
theorem no_healthy_host_counter_witness :
    (∃ popt ws1,
      httpConnPoolForCluster rtAll wsOne "c" ResourcePriority.Default
        = .ok (popt, ws1) ∧
      noneHealthyCount ws1 "c"
        = some (entryNoHost.stats.upstream_cx_none_healthy_ +
            (if entryNoHost.chooseHostResult = none then 1 else 0)) ∧
      (entryNoHost.chooseHostResult = none →
        popt = none ∧
          ws1.host_http_conn_pool_map_ = wsOne.host_http_conn_pool_map_)) ∧
    (∃ cd ws2,
      tcpConnForCluster wsOne "c" = .ok (cd, ws2) ∧
      noneHealthyCount ws2 "c"
        = some (entryNoHost.stats.upstream_cx_none_healthy_ +
            (if entryNoHost.chooseHostResult = none then 1 else 0)) ∧
      (entryNoHost.chooseHostResult = none → cd = (none, none)) ∧
      (∀ h, entryNoHost.chooseHostResult = some h → cd = (some h, some h))) :=
  no_healthy_host_counter rtAll wsOne "c" ResourcePriority.Default entryNoHost rfl

/-- Helper: a container registered with `e + 1` drains remaining is erased —
with all of its pool slots handed to the deferred-deletion queue — after
exactly `e + 1` firings of its drained-callback, and containers of other
hosts are untouched. -/
theorem drainedCallback_countdown (old : HostId) :
    ∀ (e : Nat) (s : WorkerPools) (c : ConnPoolsContainer),
      s.host_http_conn_pool_map_ old = some c →
      c.drains_remaining_ = e + 1 →
      ((drainedCallback old)^[e + 1] s).host_http_conn_pool_map_ old = none ∧
      ((drainedCallback old)^[e + 1] s).deferred_deleted
        = s.deferred_deleted ++ c.pools_ ∧
      ∀ h2, h2 ≠ old →
        ((drainedCallback old)^[e + 1] s).host_http_conn_pool_map_ h2
          = s.host_http_conn_pool_map_ h2 := by
  intro e
  induction e with
  | zero =>
    intro s c hc hd
    rw [Function.iterate_one]
    unfold drainedCallback
    rw [hc]
    simp only [Option.getD_some, hd, Nat.zero_add, Nat.sub_self, if_pos]
    refine ⟨Function.update_same _ _ _, trivial, ?_⟩
    intro h2 hne
    exact Function.update_noteq hne _ _
  | succ e ih =>
    intro s c hc hd
    rw [Function.iterate_succ_apply]
    have hstep : drainedCallback old s =
        { host_http_conn_pool_map_ :=
            Function.update s.host_http_conn_pool_map_ old
              (some { c with drains_remaining_ := e + 1 })
          deferred_deleted := s.deferred_deleted } := by
      unfold drainedCallback
      rw [hc]
      simp only [Option.getD_some, hd, Nat.add_sub_cancel]
      simp [Nat.succ_ne_zero]
    rw [hstep]
    have hih := ih
      { host_http_conn_pool_map_ :=
          Function.update s.host_http_conn_pool_map_ old
            (some { c with drains_remaining_ := e + 1 })
        deferred_deleted := s.deferred_deleted }
      { c with drains_remaining_ := e + 1 }
      (Function.update_same _ _ _) rfl
    refine ⟨hih.1, ?_, ?_⟩
    · exact hih.2.1
    · intro h2 hne
      rw [hih.2.2 h2 hne]
      exact Function.update_noteq hne _ _

/-- C1: when a member update reports a removed host that has a
`ConnPoolsContainer`, the worker sets `drains_remaining` to the number of
non-empty pool slots and registers that many drained-callbacks; each
callback decrements the counter, and when it reaches zero every pool of the
container is handed to the dispatcher's deferred-deletion queue and the
host's entry is erased — no container for the removed host remains after
all its pools report drained. -/
theorem removed_host_drain (m : CPMap) (old : HostId) (c : ConnPoolsContainer)
    (hfound : m old = some c) (hfresh : c.drains_remaining_ = 0)
    (hpos : 0 < countNonEmpty c.pools_) :
    (memberUpdateDrain m [old]).2 = countNonEmpty c.pools_ ∧
    (memberUpdateDrain m [old]).1 old
      = some { c with drains_remaining_ := countNonEmpty c.pools_ } ∧
    ((drainedCallback old)^[countNonEmpty c.pools_]
        { host_http_conn_pool_map_ := (memberUpdateDrain m [old]).1
          deferred_deleted := [] }).host_http_conn_pool_map_ old = none ∧
    ((drainedCallback old)^[countNonEmpty c.pools_]
        { host_http_conn_pool_map_ := (memberUpdateDrain m [old]).1
          deferred_deleted := [] }).deferred_deleted = c.pools_ := by
  have hmud : memberUpdateDrain m [old]
      = (Function.update m old
          (some { c with drains_remaining_ := countNonEmpty c.pools_ }),
        countNonEmpty c.pools_) := by
    unfold memberUpdateDrain drainConnPools
    simp [hfound, hfresh]
  obtain ⟨e, he⟩ : ∃ e, countNonEmpty c.pools_ = e + 1 :=
    ⟨countNonEmpty c.pools_ - 1, by omega⟩
  have hcd := drainedCallback_countdown old e
    { host_http_conn_pool_map_ := (memberUpdateDrain m [old]).1
      deferred_deleted := [] }
    { c with drains_remaining_ := countNonEmpty c.pools_ }
    (by rw [hmud]; exact Function.update_same _ _ _)
    (by simpa using he)
  rw [← he] at hcd
  refine ⟨by rw [hmud], by rw [hmud]; exact Function.update_same _ _ _, hcd.1, ?_⟩
  simpa using hcd.2.1

/-- C1 witness: host `7` with one non-empty pool slot — after the member
update and one drained-callback its container is gone and its pool is in
the deferred-deletion queue. -/
theorem removed_host_drain_witness :
    (memberUpdateDrain cpmapW [7]).2 = countNonEmpty containerW.pools_ ∧
    (memberUpdateDrain cpmapW [7]).1 7
      = some { containerW with drains_remaining_ := countNonEmpty containerW.pools_ } ∧
    ((drainedCallback 7)^[countNonEmpty containerW.pools_]
        { host_http_conn_pool_map_ := (memberUpdateDrain cpmapW [7]).1
          deferred_deleted := [] }).host_http_conn_pool_map_ 7 = none ∧
    ((drainedCallback 7)^[countNonEmpty containerW.pools_]
        { host_http_conn_pool_map_ := (memberUpdateDrain cpmapW [7]).1
          deferred_deleted := [] }).deferred_deleted = containerW.pools_ :=
  removed_host_drain cpmapW 7 containerW (by decide) rfl (by decide)

/-- Helper: what a successful `loadClusterType` guarantees. -/
theorem loadClusterType_ok {s : CMState} {c : ClusterConfig} {s1 : CMState}
    (h : loadClusterType s c = .ok s1) :
    KnownClusterType c.type ∧
    s1.primary_clusters_ = s.primary_clusters_ ∧
    s1.sds_config_valid = s.sds_config_valid ∧
    s1.pending_cluster_init_ = s.pending_cluster_init_ ∧
    (s.sds_config_valid = false → c.type ≠ "sds") := by
  unfold loadClusterType at h
  by_cases h1 : c.type = "static" ∨ c.type = "strict_dns" ∨ c.type = "logical_dns"
  · rw [if_pos h1] at h
    injection h with h4
    subst h4
    refine ⟨Or.elim h1 (fun a => Or.inl a)
      (fun b => Or.elim b (fun a => Or.inr (Or.inl a))
        (fun a => Or.inr (Or.inr (Or.inl a)))), rfl, rfl, rfl, ?_⟩
    intro _ hcon
    rw [hcon] at h1
    rcases h1 with ha | ha | ha <;> simp at ha
  · rw [if_neg h1] at h
    by_cases h2 : c.type = "sds"
    · rw [if_pos h2] at h
      by_cases h3 : s.sds_config_valid = true
      · rw [if_pos h3] at h
        injection h with h4
        subst h4
        refine ⟨Or.inr (Or.inr (Or.inr h2)), rfl, rfl, rfl, ?_⟩
        intro hvf
        rw [hvf] at h3
        simp at h3
      · rw [if_neg h3] at h
        simp at h
    · rw [if_neg h2] at h
      simp at h

/-- Helper: what a successful `loadCluster` guarantees. -/
theorem loadCluster_ok {s : CMState} {c : ClusterConfig} {s1 : CMState}
    (h : loadCluster s c = .ok s1) :
    KnownClusterType c.type ∧
    c.name ∉ s.primary_clusters_ ∧
    s1.primary_clusters_ = s.primary_clusters_ ++ [c.name] ∧
    s1.sds_config_valid = s.sds_config_valid ∧
    s1.pending_cluster_init_ = s.pending_cluster_init_ ∧
    (s.sds_config_valid = false → c.type ≠ "sds") := by
  unfold loadCluster at h
  rcases hlt : loadClusterType s c with e | s2
  · rw [hlt] at h
    simp at h
  · rw [hlt] at h
    dsimp only at h
    obtain ⟨hk, hp, hv, hpend, hsds⟩ := loadClusterType_ok hlt
    by_cases hmem : c.name ∈ s2.primary_clusters_
    · rw [if_pos hmem] at h
      simp at h
    · rw [if_neg hmem] at h
      injection h with h4
      subst h4
      rw [hp] at hmem
      exact ⟨hk, hmem, by simp [hp], by simp [hv], by simp [hpend], hsds⟩

/-- Helper: what a successful `loadClusters` loop guarantees: every type is
known, the registry grows by exactly the listed names, the SDS-config flag
and pending counter are untouched, name uniqueness is preserved, and with no
SDS config no SDS-typed cluster was accepted. -/
theorem loadClusters_ok :
    ∀ (cs : List ClusterConfig) (s s' : CMState),
      loadClusters s cs = .ok s' →
      (∀ c ∈ cs, KnownClusterType c.type) ∧
      s'.primary_clusters_ = s.primary_clusters_ ++ cs.map ClusterConfig.name ∧
      s'.sds_config_valid = s.sds_config_valid ∧
      s'.pending_cluster_init_ = s.pending_cluster_init_ ∧
      (s.primary_clusters_.Nodup → s'.primary_clusters_.Nodup) ∧
      (s.sds_config_valid = false → ∀ c ∈ cs, c.type ≠ "sds") := by
  intro cs
  induction cs with
  | nil =>
    intro s s' h
    unfold loadClusters at h
    injection h with h1
    subst h1
    simp
  | cons c rest ih =>
    intro s s' h
    unfold loadClusters at h
    rcases hlc : loadCluster s c with e | s1
    · rw [hlc] at h
      simp at h
    · rw [hlc] at h
      obtain ⟨hk, hmem, hp, hv, hpend, hsds⟩ := loadCluster_ok hlc
      obtain ⟨ihk, ihp, ihv, ihpend, ihnd, ihsds⟩ := ih s1 s' h
      refine ⟨?_, ?_, ?_, ?_, ?_, ?_⟩
      · intro x hx
        rcases List.mem_cons.mp hx with hx | hx
        · rw [hx]
          exact hk
        · exact ihk x hx
      · rw [ihp, hp]
        simp
      · rw [ihv, hv]
      · rw [ihpend, hpend]
      · intro hnd
        apply ihnd
        rw [hp]
        simp [List.nodup_append, hnd, hmem]
      · intro hvf x hx
        rcases List.mem_cons.mp hx with hx | hx
        · rw [hx]
          exact hsds hvf
        · exact ihsds (by rw [hv, hvf]) x hx

/-- Helper: what a successful `local_cluster_name` check guarantees. -/
theorem checkLocalClusterName_ok {s s' : CMState} {lcn : Option String}
    (h : checkLocalClusterName s lcn = .ok s') :
    s' = s ∧ ∀ n, lcn = some n → n ∈ s.primary_clusters_ := by
  unfold checkLocalClusterName at h
  rcases lcn with _ | n
  · injection h with h1
    subst h1
    exact ⟨rfl, by simp⟩
  · dsimp only at h
    by_cases hm : n ∈ s.primary_clusters_
    · rw [if_pos hm] at h
      injection h with h1
      subst h1
      refine ⟨rfl, ?_⟩
      intro n2 hn2
      cases hn2
      exact hm
    · rw [if_neg hm] at h
      simp at h

/-- Helper: soundness of a successful load: all cluster types are known,
names are globally unique, SDS-typed clusters only appear under an SDS
config, a configured local cluster name is registered, the pending-init
counter is the number of clusters plus one for the SDS backing cluster, and
the registry lists exactly the loaded names. -/
theorem clusterManagerLoad_ok {cfg : CMConfig} {s : CMState}
    (h : clusterManagerLoad cfg = .ok s) :
    (∀ c ∈ allClusterConfigs cfg, KnownClusterType c.type) ∧
    ((allClusterConfigs cfg).map ClusterConfig.name).Nodup ∧
    (cfg.sds = none → ∀ c ∈ cfg.clusters, c.type ≠ "sds") ∧
    (∀ n, cfg.local_cluster_name = some n →
      n ∈ (allClusterConfigs cfg).map ClusterConfig.name) ∧
    s.pending_cluster_init_
      = cfg.clusters.length + (if cfg.sds.isSome then 1 else 0) ∧
    s.primary_clusters_ = (allClusterConfigs cfg).map ClusterConfig.name := by
  unfold clusterManagerLoad at h
  rcases hsds : cfg.sds with _ | sc
  · rw [hsds] at h
    dsimp only at h
    split at h
    · simp at h
    · rename_i s2 heq
      obtain ⟨hk, hp, hv, hpend, hnd, hsdsok⟩ := loadClusters_ok _ _ _ heq
      obtain ⟨rfl, hlocal⟩ := checkLocalClusterName_ok h
      have hall : allClusterConfigs cfg = cfg.clusters := by
        simp [allClusterConfigs, hsds]
      simp only [hall, hsds]
      refine ⟨hk, ?_, fun _ => hsdsok rfl, ?_, ?_, ?_⟩
      · have := hnd (by simp)
        rw [hp] at this
        simpa using this
      · intro n hn
        have := hlocal n hn
        rw [hp] at this
        simpa using this
      · simp [hpend]
      · rw [hp]
        simp
  · rw [hsds] at h
    dsimp only at h
    split at h
    · simp at h
    · rename_i s1 heq1
      split at h
      · simp at h
      · rename_i s2 heq2
        obtain ⟨hk1, _, hp1, hv1, hpend1, _⟩ := loadCluster_ok heq1
        obtain ⟨hk, hp, hv, hpend, hnd, _⟩ := loadClusters_ok _ _ _ heq2
        obtain ⟨rfl, hlocal⟩ := checkLocalClusterName_ok h
        have hall : allClusterConfigs cfg = sc :: cfg.clusters := by
          simp [allClusterConfigs, hsds]
        have hp1b : s1.primary_clusters_ = [sc.name] := by
          simpa using hp1
        have hpfull : s.primary_clusters_
            = sc.name :: cfg.clusters.map ClusterConfig.name := by
          rw [hp]
          simp [hp1b]
        simp only [hall, hsds]
        refine ⟨?_, ?_, ?_, ?_, ?_, ?_⟩
        · intro x hx
          rcases List.mem_cons.mp hx with hx | hx
          · rw [hx]
            exact hk1
          · exact hk x hx
        · have := hnd (by simp [hp1b])
          rw [hpfull] at this
          simpa using this
        · intro hcon
          simp at hcon
        · intro n hn
          have := hlocal n hn
          rw [hpfull] at this
          simpa using this
        · simp [hpend, hpend1]
        · rw [hpfull]
          simp

/-- C6: `Load` fails — producing no cluster manager — whenever the config
contains a cluster with an unknown type, two clusters with the same name, an
SDS-typed cluster while no SDS config is present, or a `local_cluster_name`
naming no loaded cluster. -/
theorem load_config_error (cfg : CMConfig)
    (hbad : (∃ c ∈ allClusterConfigs cfg, ¬ KnownClusterType c.type) ∨
      ¬ ((allClusterConfigs cfg).map ClusterConfig.name).Nodup ∨
      (cfg.sds = none ∧ ∃ c ∈ cfg.clusters, c.type = "sds") ∨
      (∃ n, cfg.local_cluster_name = some n ∧
        n ∉ (allClusterConfigs cfg).map ClusterConfig.name)) :
    (clusterManagerLoad cfg).isOk = false := by
  rcases hres : clusterManagerLoad cfg with e | s
  · rfl
  · exfalso
    obtain ⟨hk, hnd, hsds, hlocal, _, _⟩ := clusterManagerLoad_ok hres
    rcases hbad with ⟨c, hc, hbadk⟩ | hbadnd | ⟨hnone, c, hc, hct⟩ | ⟨n, hn, hnmem⟩
    · exact hbadk (hk c hc)
    · exact hbadnd hnd
    · exact hsds hnone c hc hct
    · exact hnmem (hlocal n hn)

/-- C6 witness: a config whose single cluster has unknown type `bogus` is
rejected. -/
theorem load_config_error_witness : (clusterManagerLoad cfgBad).isOk = false :=
  load_config_error cfgBad (Or.inl ⟨{ name := "a", type := "bogus" }, by decide, by decide⟩)

/-- Helper: full characterization of the init-counter protocol after `j` of
the `n` cluster-initialized callbacks have fired (with `k` SDS clusters,
`k < n`): the counter reads `n - j`, the external callback has fired iff all
`n` callbacks ran, and the SDS clusters were told to initialize exactly once,
at the callback that brought the counter down to `k`. -/
theorem clusterInitializedCb_iterate (n k : Nat) (hk : k < n) :
    ∀ j, j ≤ n →
      clusterInitializedCb^[j] (initInitState n k) =
        { pending_cluster_init_ := n - j
          sds_clusters_size := k
          has_initialized_callback_ := true
          initialized_callback_calls := if j = n then 1 else 0
          sds_initialize_rounds := if 0 < k ∧ n - k ≤ j then 1 else 0 } := by
  intro j
  induction j with
  | zero =>
    intro _
    have h1 : ¬(0 = n) := by omega
    have h2 : ¬(0 < k ∧ n - k ≤ 0) := by omega
    rw [if_neg h1, if_neg h2]
    simp [initInitState]
  | succ j ih =>
    intro hj1
    have hj : j ≤ n := by omega
    rw [Function.iterate_succ_apply', ih hj]
    unfold clusterInitializedCb
    dsimp only
    by_cases h0 : n - j - 1 = 0
    · rw [if_pos h0]
      simp only [InitState.mk.injEq]
      refine ⟨by omega, trivial, trivial, ?_, ?_⟩
      · split_ifs <;> omega
      · split_ifs <;> omega
    · rw [if_neg h0]
      by_cases hks : n - j - 1 = k
      · rw [if_pos hks]
        simp only [InitState.mk.injEq]
        refine ⟨by omega, trivial, trivial, ?_, ?_⟩
        · split_ifs <;> omega
        · split_ifs <;> omega
      · rw [if_neg hks]
        simp only [InitState.mk.injEq]
        refine ⟨by omega, trivial, trivial, ?_, ?_⟩
        · split_ifs <;> omega
        · split_ifs <;> omega

/-- C3: after a successful load the pending-init counter starts at the
number of configured clusters plus one for the SDS backing cluster; each
cluster-initialized callback decrements it by one; the SDS clusters are told
to initialize exactly once, when the counter reaches the number of SDS
clusters; and the externally registered initialized callback fires exactly
once, exactly when the counter reaches zero. -/
theorem init_counter_protocol (cfg : CMConfig) (s : CMState) (j : Nat)
    (hload : clusterManagerLoad cfg = .ok s)
    (hk : s.sds_clusters_size < s.pending_cluster_init_)
    (hj : j ≤ s.pending_cluster_init_) :
    s.pending_cluster_init_
      = cfg.clusters.length + (if cfg.sds.isSome then 1 else 0) ∧
    (clusterInitializedCb^[j]
        (initInitState s.pending_cluster_init_ s.sds_clusters_size)).pending_cluster_init_
      = s.pending_cluster_init_ - j ∧
    (clusterInitializedCb^[j]
        (initInitState s.pending_cluster_init_ s.sds_clusters_size)).initialized_callback_calls
      = (if j = s.pending_cluster_init_ then 1 else 0) ∧
    (clusterInitializedCb^[j]
        (initInitState s.pending_cluster_init_ s.sds_clusters_size)).sds_initialize_rounds
      = (if 0 < s.sds_clusters_size ∧
            s.pending_cluster_init_ - s.sds_clusters_size ≤ j then 1 else 0) := by
  have hchar := clusterInitializedCb_iterate _ _ hk j hj
  exact ⟨(clusterManagerLoad_ok hload).2.2.2.2.1, by rw [hchar], by rw [hchar],
    by rw [hchar]⟩

/-- C3 witness: loading `cfgW` (two clusters plus an SDS backing cluster)
starts the counter at 3; after all 3 callbacks the external callback has
fired once and the single SDS cluster was told to initialize. -/
theorem init_counter_protocol_witness :
    cmW.pending_cluster_init_
      = cfgW.clusters.length + (if cfgW.sds.isSome then 1 else 0) ∧
    (clusterInitializedCb^[3]
        (initInitState cmW.pending_cluster_init_ cmW.sds_clusters_size)).pending_cluster_init_
      = cmW.pending_cluster_init_ - 3 ∧
    (clusterInitializedCb^[3]
        (initInitState cmW.pending_cluster_init_ cmW.sds_clusters_size)).initialized_callback_calls
      = (if 3 = cmW.pending_cluster_init_ then 1 else 0) ∧
    (clusterInitializedCb^[3]
        (initInitState cmW.pending_cluster_init_ cmW.sds_clusters_size)).sds_initialize_rounds
      = (if 0 < cmW.sds_clusters_size ∧
            cmW.pending_cluster_init_ - cmW.sds_clusters_size ≤ 3 then 1 else 0) :=
  init_counter_protocol cfgW cmW 3 rfl (by decide) (by decide)

/-- Helper: the pool allocator stamps the requested fresh id on the pool. -/
theorem allocateConnPool_id (runtime : RuntimeSnapshot) (features : Nat)
    (n : PoolId) : (allocateConnPool runtime features n).id = n := by
  unfold allocateConnPool
  split <;> rfl

/-- C8: scenario S1 — a static round-robin cluster with two healthy hosts:
three sequential `HttpConnPool(name, Default)` calls return pools bound to
the hosts in a fixed cyclic order (first, second, first — up to the starting
offset of the cyclic index), exactly two distinct pools are created in
total, and the third call returns the pool created by the first call instead
of allocating a new one. -/
theorem round_robin_two_hosts (runtime : RuntimeSnapshot) (features : Nat)
    (h1 h2 : HostId) (i : Nat) (hne : h1 ≠ h2) :
    ∃ a b,
      ((a = h1 ∧ b = h2) ∨ (a = h2 ∧ b = h1)) ∧
      (s1Scenario runtime features h1 h2 i).1
        = [(some a, some (allocateConnPool runtime features 0)),
           (some b, some (allocateConnPool runtime features 1)),
           (some a, some (allocateConnPool runtime features 0))] ∧
      (s1Scenario runtime features h1 h2 i).2 = 2 ∧
      allocateConnPool runtime features 0 ≠ allocateConnPool runtime features 1 := by
  have hne2 : h2 ≠ h1 := Ne.symm hne
  have hpools : allocateConnPool runtime features 0
      ≠ allocateConnPool runtime features 1 := by
    intro hcon
    have hid := congrArg Pool.id hcon
    rw [allocateConnPool_id, allocateConnPool_id] at hid
    exact absurd hid (by decide)
  rcases Nat.mod_two_eq_zero_or_one i with hi | hi
  · have hi1 : (i + 1) % 2 = 1 := by omega
    have hi2 : (i + 2) % 2 = 0 := by omega
    refine ⟨h1, h2, Or.inl ⟨rfl, rfl⟩, ?_, ?_, hpools⟩
    · simp [s1Scenario, httpConnPoolStep, RoundRobinLoadBalancer.chooseHost,
        inPanic, cyclicPick, ClusterEntry.connPool, CPMap.index, CPMap.empty,
        ConnPoolsContainer.empty, NUM_PRIORITIES, enumToInt, hi, hi1, hi2,
        hne, hne2, Function.update_apply, List.replicate]
    · simp [s1Scenario, httpConnPoolStep, RoundRobinLoadBalancer.chooseHost,
        inPanic, cyclicPick, ClusterEntry.connPool, CPMap.index, CPMap.empty,
        ConnPoolsContainer.empty, NUM_PRIORITIES, enumToInt, hi, hi1, hi2,
        hne, hne2, Function.update_apply, List.replicate]
  · have hi1 : (i + 1) % 2 = 0 := by omega
    have hi2 : (i + 2) % 2 = 1 := by omega
    refine ⟨h2, h1, Or.inr ⟨rfl, rfl⟩, ?_, ?_, hpools⟩
    · simp [s1Scenario, httpConnPoolStep, RoundRobinLoadBalancer.chooseHost,
        inPanic, cyclicPick, ClusterEntry.connPool, CPMap.index, CPMap.empty,
        ConnPoolsContainer.empty, NUM_PRIORITIES, enumToInt, hi, hi1, hi2,
        hne, hne2, Function.update_apply, List.replicate]
    · simp [s1Scenario, httpConnPoolStep, RoundRobinLoadBalancer.chooseHost,
        inPanic, cyclicPick, ClusterEntry.connPool, CPMap.index, CPMap.empty,
        ConnPoolsContainer.empty, NUM_PRIORITIES, enumToInt, hi, hi1, hi2,
        hne, hne2, Function.update_apply, List.replicate]

/-- C8 witness: hosts `1` and `2`, starting offset `0`. -/
theorem round_robin_two_hosts_witness :
    ∃ a b,
      ((a = 1 ∧ b = 2) ∨ (a = 2 ∧ b = 1)) ∧
      (s1Scenario rtAll 0 1 2 0).1
        = [(some a, some (allocateConnPool rtAll 0 0)),
           (some b, some (allocateConnPool rtAll 0 1)),
           (some a, some (allocateConnPool rtAll 0 0))] ∧
      (s1Scenario rtAll 0 1 2 0).2 = 2 ∧
      allocateConnPool rtAll 0 0 ≠ allocateConnPool rtAll 0 1 :=
  round_robin_two_hosts rtAll 0 1 2 0 (by decide)

end Upstream
